import Mathlib

/-!
Verification development for the `tube` repository: a shallow embedding of
the install-prompt widget SDK (standalone-mode detection, manifest/icon
resolution, localization lookup, drawer lifecycle) and of the search tab's
watch-history and YouTube scraping helpers, with theorems checking the
natural-language specification against the code.

Browser state (matchMedia results, navigator fields, DOM link elements,
fetch outcomes, probe outcomes, localStorage) is passed explicitly as
environment records; asynchronous functions that catch all their failures
are embedded as total functions; JS truthiness on strings is modelled as
"nonempty" and absent values as `Option.none`.
-/

/-! ## Generic JS-style string helpers -/

/-- Truthiness of a JS string-or-undefined value: `undefined`, `null` and
`""` are falsy, every nonempty string is truthy. -/
def truthyS (o : Option String) : Bool :=
  match o with
  | none => false
  | some s => s ≠ ""

/-- JS `a || b` on string-or-undefined values: returns `a` when truthy,
otherwise `b` (even when `b` is falsy). -/
def jsOrStr (a b : Option String) : Option String :=
  if truthyS a then a else b

/-- Case-sensitive substring test on character lists, the semantics of JS
`String.prototype.includes`. An empty pattern is contained everywhere. -/
def containsSub : List Char → List Char → Bool
  | s, pat =>
    pat.isPrefixOf s ||
      (match s with
       | [] => false
       | _ :: cs => containsSub cs pat)
  termination_by s _ => s.length

/-- Substring test on `String`, JS `s.includes(pat)`. -/
def strIncludes (s pat : String) : Bool :=
  containsSub s.data pat.data

/-! ## Platform signal environment (part_000, `utils`) -/

/-- Snapshot of the browser capability signals the SDK reads: the three
`display-mode` media queries, the iOS `navigator.standalone` flag, the
user-agent string, the dark-mode media query and the navigator locale
fields. -/
structure SignalEnv where
  displayStandalone : Bool
  displayFullscreen : Bool
  displayMinimalUI : Bool
  iosStandalone : Bool
  userAgent : String
  prefersDark : Bool
  language : Option String
  userLanguage : Option String

/-- Embeds `utils.isStandalone` (part_000 lines 11-32): logical OR of the
three display-mode matches and the iOS standalone flag. -/
def utilsIsStandalone (env : SignalEnv) : Bool :=
  let displayModeStandalone := env.displayStandalone
  let displayModeFullscreen := env.displayFullscreen
  let displayModeMinimalUI := env.displayMinimalUI
  let iosStandalone := env.iosStandalone
  displayModeStandalone || displayModeFullscreen || displayModeMinimalUI || iosStandalone

/-- Device keywords of the `utils.isMobile` regex
`/Android|webOS|iPhone|iPad|iPod|BlackBerry|IEMobile|Opera Mini/i`. -/
def mobileKeywords : List String :=
  ["Android", "webOS", "iPhone", "iPad", "iPod", "BlackBerry", "IEMobile", "Opera Mini"]

/-- Case-insensitive substring test (the `/i` regex flag), folding both
sides to lower case. -/
def containsSubCI (s pat : String) : Bool :=
  containsSub (s.data.map Char.toLower) (pat.data.map Char.toLower)

/-- Embeds `utils.isMobile` (part_000 lines 35-38): the alternation regex
matches iff some device keyword occurs case-insensitively in the UA. -/
def utilsIsMobile (env : SignalEnv) : Bool :=
  mobileKeywords.any (fun kw => containsSubCI env.userAgent kw)

/-! ## SDK facade: init and shouldShowDrawer (part_000, `WaheimSDK`) -/

/-- Configuration accepted by `WaheimSDK.init`, with the source defaults. -/
structure InitConfig where
  autoShow : Bool := true
  delay : Nat := 500
  showOnce : Bool := false
  mobileOnly : Bool := false

/-- Embeds `WaheimSDK.shouldShowDrawer` (part_000 lines 1025-1067): false
when standalone mode is detected, false when `mobileOnly` is set and the
device is not mobile, true otherwise. (The console logging and the unused
webview diagnostics are pure output and are not part of the state.) -/
def shouldShowDrawer (env : SignalEnv) (config : InitConfig) : Bool :=
  let isStandaloneMode := utilsIsStandalone env
  if isStandaloneMode then false
  else if config.mobileOnly && !utilsIsMobile env then false
  else true

/-- Observable outcome of `WaheimSDK.init`: the computed
`isAlreadyInstalled` flag, the delay of the scheduled `showDrawer` timer
if one was set, and whether the `beforeinstallprompt` listener was
registered. When init skips (already installed) nothing is scheduled and
no listener is registered. -/
structure InitResult where
  isAlreadyInstalled : Bool
  scheduledShowDelay : Option Nat
  promptListenerRegistered : Bool
deriving DecidableEq

/-- Embeds `WaheimSDK.init` (part_000 lines 959-1022): recomputes every
standalone signal, ORs them into `isAlreadyInstalled`, returns early when
the flag is set, and otherwise schedules `showDrawer` (when `autoShow`
and `shouldShowDrawer` hold) and registers the install-prompt listener. -/
def sdkInit (env : SignalEnv) (options : InitConfig) : InitResult :=
  let config := options
  let isStandaloneMode := utilsIsStandalone env
  let isStandaloneDisplayMode := env.displayStandalone
  let isFullscreenDisplayMode := env.displayFullscreen
  let isMinimalUIDisplayMode := env.displayMinimalUI
  let isIOSStandalone := env.iosStandalone
  let hasPWAFeatures := env.displayStandalone || env.displayFullscreen || env.displayMinimalUI
  let isAlreadyInstalled :=
    isStandaloneMode ||
    isStandaloneDisplayMode ||
    isFullscreenDisplayMode ||
    isMinimalUIDisplayMode ||
    isIOSStandalone ||
    hasPWAFeatures
  if isAlreadyInstalled then
    { isAlreadyInstalled := true, scheduledShowDelay := none, promptListenerRegistered := false }
  else
    { isAlreadyInstalled := false
      scheduledShowDelay :=
        if config.autoShow && shouldShowDrawer env config then some config.delay else none
      promptListenerRegistered := true }

/-! ## Watch history (part_001, `getWatchedVideos` / `saveWatchedVideo`) -/

/-- Video record stored in the watch-history list and returned by search
(part_001 lines 6-11). -/
structure VideoInfo where
  videoId : String
  title : String
  thumbnail : String
  authorName : Option String := none
deriving DecidableEq

/-- Embeds `getWatchedVideos` (part_001 lines 71-78). The browser store
entry for `"watched_videos"` is `none` when absent; `parse` stands for
`JSON.parse` specialised to video lists, returning `Except` on reject;
the surrounding try/catch turns every failure into `[]`, and a falsy
(empty) stored string short-circuits to `[]` before parsing. -/
def getWatchedVideos (parse : String → Except String (List VideoInfo))
    (store : Option String) : List VideoInfo :=
  match store with
  | none => []
  | some stored =>
    if stored ≠ "" then
      match parse stored with
      | .ok l => l
      | .error _ => []
    else []

/-- Embeds the list update of `saveWatchedVideo` (part_001 lines 80-85):
drop any entry with the same videoId, prepend the new video, cap at 10. -/
def saveWatchedVideo (video : VideoInfo) (watched : List VideoInfo) : List VideoInfo :=
  let filtered := watched.filter (fun v => v.videoId != video.videoId)
  let updated := (video :: filtered).take 10
  updated

/-- Folds a sequence of `saveWatchedVideo` calls over an initial store. -/
def saveAll (videos : List VideoInfo) (store : List VideoInfo) : List VideoInfo :=
  videos.foldl (fun acc v => saveWatchedVideo v acc) store

/-- Concrete video used by witnesses. -/
def mkVid (i : String) : VideoInfo :=
  { videoId := i, title := "title " ++ i, thumbnail := "thumb " ++ i }

/-- Concrete `JSON.parse` stand-in used by the C9 witness: one good
store value, everything else rejects. -/
def parseFixture (s : String) : Except String (List VideoInfo) :=
  if s = "[good]" then .ok [mkVid "g"] else .error "SyntaxError"

/-! ## Manifest and icon resolution (part_000, `utils.loadManifest` /
`utils.getAppIcon` / `utils.createFallbackIcon`) -/

/-- Icon entry of a parsed web-app manifest. An empty `src` models a
falsy/absent `src` field (the code tests `icon && icon.src`). -/
structure ManifestIcon where
  src : String := ""
  sizes : Option String := none
  iconType : Option String := none
deriving DecidableEq

/-- Parsed web-app manifest; every field may be absent in fetched JSON. -/
structure ManifestInfo where
  name : Option String := none
  short_name : Option String := none
  icons : Option (List ManifestIcon) := none
deriving DecidableEq

/-- Outcome of the manifest fetch: a thrown network error, or a response
with its `ok` flag and the result of `response.json()`. -/
inductive FetchResult where
  | netError : FetchResult
  | response (ok : Bool) (json : Except String ManifestInfo) : FetchResult

/-- Embeds `utils.getFaviconFromHtml` (part_000 lines 73-92): the
candidate hrefs of the five favicon selectors in priority order (`""`
standing for a matched link whose href is falsy); the first truthy href
wins, otherwise null. -/
def getFaviconFromHtml (links : List String) : Option String :=
  match links with
  | [] => none
  | l :: rest => if l ≠ "" then some l else getFaviconFromHtml rest

/-- Embeds `utils.loadManifest` (part_000 lines 95-117): a 2xx response
whose body parses is returned as-is; every failure (network error,
non-ok status — thrown and caught — or JSON reject) lands in the catch
branch, which builds the default manifest around the HTML favicon when
one is present. Total by construction: the failure value never escapes. -/
def loadManifest (fetch : FetchResult) (links : List String) : ManifestInfo :=
  match fetch with
  | .response true (.ok manifest) => manifest
  | _ =>
    { name := some "React PWA"
      short_name := some "ReactPWA"
      icons := some
        [match getFaviconFromHtml links with
         | some htmlFavicon =>
           { src := htmlFavicon, sizes := some "192x192", iconType := some "image/png" }
         | none =>
           { src := "/favicon.png", sizes := some "192x192", iconType := some "image/png" }] }

/-- Icon-selection cascade of `utils.getAppIcon` (part_000 lines
127-141): exact `"{size}x{size}"` token match in `sizes`, then substring
match on the numeric size, then the first icon. -/
def selectIcon (size : Nat) (icons : List ManifestIcon) : Option ManifestIcon :=
  match icons.find? (fun i =>
    match i.sizes with
    | some sz => (sz.splitOn " ").contains (toString size ++ "x" ++ toString size)
    | none => false) with
  | some icon => some icon
  | none =>
    match icons.find? (fun i =>
      match i.sizes with
      | some sz => strIncludes sz (toString size)
      | none => false) with
    | some icon => some icon
    | none => icons.head?

/-- Base64 alphabet used by `btoa`. -/
def base64Alphabet : List Char :=
  "ABCDEFGHIJKLMNOPQRSTUVWXYZabcdefghijklmnopqrstuvwxyz0123456789+/".data

/-- One base64 digit. -/
def b64Digit (n : Nat) : Char := base64Alphabet.getD n '='

/-- Standard base64 encoding of a byte list, three bytes to four digits,
padded with `=`. -/
def b64Groups : List Nat → List Char
  | [] => []
  | [a] => [b64Digit (a / 4), b64Digit (a % 4 * 16), '=', '=']
  | [a, b] => [b64Digit (a / 4), b64Digit (a % 4 * 16 + b / 16), b64Digit (b % 16 * 4), '=']
  | a :: b :: c :: rest =>
    b64Digit (a / 4) :: b64Digit (a % 4 * 16 + b / 16) :: b64Digit (b % 16 * 4 + c / 64) ::
      b64Digit (c % 64) :: b64Groups rest

/-- Embeds the browser `btoa` on Latin-1 text (the SVG below is ASCII). -/
def btoa (s : String) : String :=
  String.mk (b64Groups (s.data.map (fun c => c.toNat % 256)))

/-- Template literal of `utils.createFallbackIcon` (part_000 lines
186-193), whitespace included. -/
def svgIconTemplate : String :=
  "\n        <svg width=\"192\" height=\"192\" viewBox=\"0 0 192 192\" fill=\"none\" xmlns=\"http://www.w3.org/2000/svg\">\n          <rect width=\"192\" height=\"192\" rx=\"32\"/>\n          <path d=\"M96 48C80 48 64 56 56 68C48 80 48 96 48 112H64C64 96 64 80 72 68C80 56 88 48 96 48V48Z\" fill=\"white\"/>\n          <circle cx=\"96\" cy=\"96\" r=\"32\" fill=\"white\"/>\n          <circle cx=\"96\" cy=\"96\" r=\"16\"/>\n        </svg>\n      "

/-- Embeds `utils.createFallbackIcon` (part_000 lines 184-196): a
base64-encoded SVG data URI. -/
def createFallbackIcon : String :=
  "data:image/svg+xml;base64," ++ btoa svgIconTemplate

/-- Environment of one `getAppIcon` run: the manifest fetch outcome, the
favicon link hrefs, and the outcome of each HEAD existence probe
(`probe u = true` iff the request resolves with `response.ok`; thrown
probes are caught and count as false). -/
structure PageEnv where
  fetch : FetchResult
  links : List String
  probe : String → Bool

/-- Manifest branch of `utils.getAppIcon` (part_000 lines 125-154): when
the manifest has a nonempty icon list, select a candidate; if it has a
truthy `src` and its probe succeeds, that src is the result, otherwise
the branch yields nothing and the favicon fallback runs. -/
def manifestIconCandidate (probe : String → Bool) (size : Nat)
    (manifest : ManifestInfo) : Option String :=
  match manifest.icons with
  | some icons =>
    if 0 < icons.length then
      match selectIcon size icons with
      | some icon => if icon.src != "" && probe icon.src then some icon.src else none
      | none => none
    else none
  | none => none

/-- Embeds `utils.getAppIcon` (part_000 lines 120-181): manifest icon
candidate, then HTML favicon (probed), then the generated fallback icon.
The outer catch is unreachable here because every inner failure is
already caught, so it is not modelled. -/
def getAppIcon (env : PageEnv) (size : Nat := 192) : String :=
  let manifest := loadManifest env.fetch env.links
  match manifestIconCandidate env.probe size manifest with
  | some src => src
  | none =>
    match getFaviconFromHtml env.links with
    | some htmlFavicon =>
      if env.probe htmlFavicon then htmlFavicon else createFallbackIcon
    | none => createFallbackIcon

/-- Environment where the fetch throws, no favicon link exists and every
probe fails: the terminal fallback case of C2. -/
def probelessEnv : PageEnv :=
  { fetch := .netError, links := [], probe := fun _ => false }

/-- Static translation table of `utils.translateText` (part_000 lines
203-532), locale code to key/value pairs, in source order. -/
def translations : List (String × List (String × String)) := [
  ("en", [("clickOnBrowser", "Click"),
    ("shareIcon", "on menu of browser"),
    ("scrollAndSelect", "Scroll and select"),
    ("addToHomeScreen", "Add to Home Screen"),
    ("openApp", "Open app"),
    ("fromHomeScreen", "from your home screen")]),
  ("es", [("clickOnBrowser", "Haz clic"),
    ("shareIcon", "en el menú del navegador"),
    ("scrollAndSelect", "Desplázate y selecciona"),
    ("addToHomeScreen", "Añadir a pantalla de inicio"),
    ("openApp", "Abrir app"),
    ("fromHomeScreen", "desde tu pantalla de inicio")]),
  ("fr", [("clickOnBrowser", "Cliquez"),
    ("shareIcon", "sur le menu du navigateur"),
    ("scrollAndSelect", "Faites défiler et sélectionnez"),
    ("addToHomeScreen", "Ajouter à l\x27écran d\x27accueil"),
    ("openApp", "Ouvrir l\x27app"),
    ("fromHomeScreen", "depuis votre écran d\x27accueil")]),
  ("de", [("clickOnBrowser", "Klicken"),
    ("shareIcon", "im Browser-Menü"),
    ("scrollAndSelect", "Scrollen und auswählen"),
    ("addToHomeScreen", "Zum Startbildschirm hinzufügen"),
    ("openApp", "App öffnen"),
    ("fromHomeScreen", "vom Startbildschirm aus")]),
  ("it", [("clickOnBrowser", "Clicca"),
    ("shareIcon", "sul menu del browser"),
    ("scrollAndSelect", "Scorri e seleziona"),
    ("addToHomeScreen", "Aggiungi alla schermata principale"),
    ("openApp", "Apri app"),
    ("fromHomeScreen", "dalla tua schermata principale")]),
  ("pt", [("clickOnBrowser", "Clique"),
    ("shareIcon", "no menu do navegador"),
    ("scrollAndSelect", "Role e selecione"),
    ("addToHomeScreen", "Adicionar à tela inicial"),
    ("openApp", "Abrir app"),
    ("fromHomeScreen", "da sua tela inicial")]),
  ("ja", [("clickOnBrowser", "クリック"),
    ("shareIcon", "ブラウザのメニューで"),
    ("scrollAndSelect", "スクロールして選択"),
    ("addToHomeScreen", "ホーム画面に追加"),
    ("openApp", "アプリを開く"),
    ("fromHomeScreen", "ホーム画面から")]),
  ("ko", [("clickOnBrowser", "클릭"),
    ("shareIcon", "브라우저 메뉴에서"),
    ("scrollAndSelect", "스크롤하여 선택"),
    ("addToHomeScreen", "홈 화면에 추가"),
    ("openApp", "앱 열기"),
    ("fromHomeScreen", "홈 화면에서")]),
  ("zh", [("clickOnBrowser", "点击"),
    ("shareIcon", "在浏览器菜单中"),
    ("scrollAndSelect", "滚动并选择"),
    ("addToHomeScreen", "添加到主屏幕"),
    ("openApp", "打开应用"),
    ("fromHomeScreen", "从主屏幕")]),
  ("ru", [("clickOnBrowser", "Нажмите"),
    ("shareIcon", "в меню браузера"),
    ("scrollAndSelect", "Прокрутите и выберите"),
    ("addToHomeScreen", "Добавить на главный экран"),
    ("openApp", "Открыть приложение"),
    ("fromHomeScreen", "с главного экрана")]),
  ("ar", [("clickOnBrowser", "انقر"),
    ("shareIcon", "في قائمة المتصفح"),
    ("scrollAndSelect", "قم بالتمرير وحدد"),
    ("addToHomeScreen", "إضافة إلى الشاشة الرئيسية"),
    ("openApp", "فتح التطبيق"),
    ("fromHomeScreen", "من الشاشة الرئيسية")]),
  ("vi", [("clickOnBrowser", "Nhấn vào"),
    ("shareIcon", "trên menu của trình duyệt"),
    ("scrollAndSelect", "Cuộn và chọn"),
    ("addToHomeScreen", "Thêm vào Màn hình chính"),
    ("openApp", "Mở ứng dụng"),
    ("fromHomeScreen", "từ Màn hình chính của bạn")]),
  ("hi", [("clickOnBrowser", "क्लिक करें"),
    ("shareIcon", "ब्राउज़र मेनू पर"),
    ("scrollAndSelect", "स्क्रॉल करें और चुनें"),
    ("addToHomeScreen", "होम स्क्रीन पर जोड़ें"),
    ("openApp", "ऐप खोलें"),
    ("fromHomeScreen", "अपनी होम स्क्रीन से")]),
  ("th", [("clickOnBrowser", "คลิก"),
    ("shareIcon", "บนเมนูของเบราว์เซอร์"),
    ("scrollAndSelect", "เลื่อนและเลือก"),
    ("addToHomeScreen", "เพิ่มลงหน้าจอหลัก"),
    ("openApp", "เปิดแอป"),
    ("fromHomeScreen", "จากหน้าจอหลักของคุณ")]),
  ("id", [("clickOnBrowser", "Klik"),
    ("shareIcon", "pada menu browser"),
    ("scrollAndSelect", "Gulir dan pilih"),
    ("addToHomeScreen", "Tambahkan ke Layar Utama"),
    ("openApp", "Buka aplikasi"),
    ("fromHomeScreen", "dari layar utama Anda")]),
  ("ms", [("clickOnBrowser", "Klik"),
    ("shareIcon", "pada menu pelayar"),
    ("scrollAndSelect", "Skrol dan pilih"),
    ("addToHomeScreen", "Tambah ke Skrin Utama"),
    ("openApp", "Buka aplikasi"),
    ("fromHomeScreen", "dari skrin utama anda")]),
  ("tr", [("clickOnBrowser", "Tıklayın"),
    ("shareIcon", "tarayıcı menüsünde"),
    ("scrollAndSelect", "Kaydırın ve seçin"),
    ("addToHomeScreen", "Ana Ekrana Ekle"),
    ("openApp", "Uygulamayı aç"),
    ("fromHomeScreen", "ana ekranınızdan")]),
  ("pl", [("clickOnBrowser", "Kliknij"),
    ("shareIcon", "w menu przeglądarki"),
    ("scrollAndSelect", "Przewiń i wybierz"),
    ("addToHomeScreen", "Dodaj do ekranu głównego"),
    ("openApp", "Otwórz aplikację"),
    ("fromHomeScreen", "ze swojego ekranu głównego")]),
  ("nl", [("clickOnBrowser", "Klik"),
    ("shareIcon", "in het browsermenu"),
    ("scrollAndSelect", "Scroll en selecteer"),
    ("addToHomeScreen", "Toevoegen aan startscherm"),
    ("openApp", "App openen"),
    ("fromHomeScreen", "vanaf je startscherm")]),
  ("sv", [("clickOnBrowser", "Klicka"),
    ("shareIcon", "i webbläsarmenyn"),
    ("scrollAndSelect", "Bläddra och välj"),
    ("addToHomeScreen", "Lägg till på hemskärmen"),
    ("openApp", "Öppna app"),
    ("fromHomeScreen", "från din hemskärm")]),
  ("da", [("clickOnBrowser", "Klik"),
    ("shareIcon", "i browsermenuen"),
    ("scrollAndSelect", "Rul og vælg"),
    ("addToHomeScreen", "Tilføj til startskærm"),
    ("openApp", "Åbn app"),
    ("fromHomeScreen", "fra din startskærm")]),
  ("no", [("clickOnBrowser", "Klikk"),
    ("shareIcon", "i nettlesermenyen"),
    ("scrollAndSelect", "Rull og velg"),
    ("addToHomeScreen", "Legg til på startskjerm"),
    ("openApp", "Åpne app"),
    ("fromHomeScreen", "fra startskjermen din")]),
  ("fi", [("clickOnBrowser", "Napsauta"),
    ("shareIcon", "selainvalikossa"),
    ("scrollAndSelect", "Vieritä ja valitse"),
    ("addToHomeScreen", "Lisää aloitusnäytölle"),
    ("openApp", "Avaa sovellus"),
    ("fromHomeScreen", "aloitusnäytöltäsi")]),
  ("he", [("clickOnBrowser", "לחץ"),
    ("shareIcon", "בתפריט הדפדפן"),
    ("scrollAndSelect", "גלול ובחר"),
    ("addToHomeScreen", "הוסף למסך הבית"),
    ("openApp", "פתח אפליקציה"),
    ("fromHomeScreen", "ממסך הבית שלך")]),
  ("fa", [("clickOnBrowser", "کلیک کنید"),
    ("shareIcon", "در منوی مرورگر"),
    ("scrollAndSelect", "اسکرول و انتخاب کنید"),
    ("addToHomeScreen", "افزودن به صفحه اصلی"),
    ("openApp", "باز کردن برنامه"),
    ("fromHomeScreen", "از صفحه اصلی شما")]),
  ("ur", [("clickOnBrowser", "کلک کریں"),
    ("shareIcon", "براؤزر مینو میں"),
    ("scrollAndSelect", "اسکرول کریں اور منتخب کریں"),
    ("addToHomeScreen", "ہوم اسکرین پر شامل کریں"),
    ("openApp", "ایپ کھولیں"),
    ("fromHomeScreen", "آپ کی ہوم اسکرین سے")]),
  ("bn", [("clickOnBrowser", "ক্লিক করুন"),
    ("shareIcon", "ব্রাউজার মেনুতে"),
    ("scrollAndSelect", "স্ক্রোল করুন এবং নির্বাচন করুন"),
    ("addToHomeScreen", "হোম স্ক্রিনে যোগ করুন"),
    ("openApp", "অ্যাপ খুলুন"),
    ("fromHomeScreen", "আপনার হোম স্ক্রিন থেকে")]),
  ("ta", [("clickOnBrowser", "சொடுக்கவும்"),
    ("shareIcon", "உலாவி மெனுவில்"),
    ("scrollAndSelect", "உருட்டி தேர்ந்தெடுக்கவும்"),
    ("addToHomeScreen", "முகப்புத்திரையில் சேர்க்கவும்"),
    ("openApp", "ஆப் திறக்கவும்"),
    ("fromHomeScreen", "உங்கள் முகப்புத்திரையில் இருந்து")]),
  ("te", [("clickOnBrowser", "క్లిక్ చేయండి"),
    ("shareIcon", "బ్రౌజర్ మెనులో"),
    ("scrollAndSelect", "స్క్రోల్ చేసి ఎంచుకోండి"),
    ("addToHomeScreen", "హోమ్ స్క్రీన్‌కి జోడించండి"),
    ("openApp", "యాప్ తెరవండి"),
    ("fromHomeScreen", "మీ హోమ్ స్క్రీన్ నుండి")]),
  ("mr", [("clickOnBrowser", "क्लिक करा"),
    ("shareIcon", "ब्राउझर मेनूमध्ये"),
    ("scrollAndSelect", "स्क्रोल करून निवडा"),
    ("addToHomeScreen", "होम स्क्रीनवर जोडा"),
    ("openApp", "अॅप उघडा"),
    ("fromHomeScreen", "तुमच्या होम स्क्रीनवरून")]),
  ("gu", [("clickOnBrowser", "ક્લિક કરો"),
    ("shareIcon", "બ્રાઉઝર મેનુમાં"),
    ("scrollAndSelect", "સ્ક્રોલ કરો અને પસંદ કરો"),
    ("addToHomeScreen", "હોમ સ્ક્રીન પર ઉમેરો"),
    ("openApp", "એપ ખોલો"),
    ("fromHomeScreen", "તમારા હોમ સ્ક્રીન પરથી")]),
  ("pa", [("clickOnBrowser", "ਕਲਿੱਕ ਕਰੋ"),
    ("shareIcon", "ਬਰਾਊਜ਼ਰ ਮੀਨੂ ਵਿੱਚ"),
    ("scrollAndSelect", "ਸਕ੍ਰੋਲ ਕਰੋ ਅਤੇ ਚੁਣੋ"),
    ("addToHomeScreen", "ਹੋਮ ਸਕ੍ਰੀਨ ਤੇ ਸ਼ਾਮਲ ਕਰੋ"),
    ("openApp", "ਐਪ ਖੋਲ੍ਹੋ"),
    ("fromHomeScreen", "ਤੁਹਾਡੀ ਹੋਮ ਸਕ੍ਰੀਨ ਤੋਂ")]),
  ("kn", [("clickOnBrowser", "ಕ್ಲಿಕ್ ಮಾಡಿ"),
    ("shareIcon", "ಬ್ರೌಸರ್ ಮೆನುವಿನಲ್ಲಿ"),
    ("scrollAndSelect", "ಸ್ಕ್ರೋಲ್ ಮಾಡಿ ಆಯ್ಕೆಮಾಡಿ"),
    ("addToHomeScreen", "ಹೋಮ್ ಸ್ಕ್ರೀನ್‌ಗೆ ಸೇರಿಸಿ"),
    ("openApp", "ಅಪ್ ತೆರೆಯಿರಿ"),
    ("fromHomeScreen", "ನಿಮ್ಮ ಹೋಮ್ ಸ್ಕ್ರೀನ್‌ನಿಂದ")]),
  ("ml", [("clickOnBrowser", "ക്ലിക്ക് ചെയ്യുക"),
    ("shareIcon", "ബ്രൗസർ മെനുവിൽ"),
    ("scrollAndSelect", "സ്ക്രോൾ ചെയ്ത് തിരഞ്ഞെടുക്കുക"),
    ("addToHomeScreen", "ഹോം സ്ക്രീനിൽ ചേർക്കുക"),
    ("openApp", "ആപ്പ് തുറക്കുക"),
    ("fromHomeScreen", "നിങ്ങളുടെ ഹോം സ്ക്രീനിൽ നിന്ന്")]),
  ("si", [("clickOnBrowser", "එබ්බන්න"),
    ("shareIcon", "බ්රව්සර් මෙනුවේ"),
    ("scrollAndSelect", "ස්ක්රෝල් කර තෝරන්න"),
    ("addToHomeScreen", "මුල් තිරයට එකතු කරන්න"),
    ("openApp", "යෙදුම විවෘත කරන්න"),
    ("fromHomeScreen", "ඔබගේ මුල් තිරයෙන්")]),
  ("my", [("clickOnBrowser", "နှိပ်ပါ"),
    ("shareIcon", "ဘရောက်ဇာမီနူးတွင်"),
    ("scrollAndSelect", "စက្ឱးော့လုပ်ပြီးရွေးချယ်ပါ"),
    ("addToHomeScreen", "ပင်မစာမျက်နှာသို့ထည့်ပါ"),
    ("openApp", "အက်ပ်ဖွင့်ပါ"),
    ("fromHomeScreen", "သင့်ပင်မစာမျက်နှာမှ")]),
  ("km", [("clickOnBrowser", "ចុច"),
    ("shareIcon", "នៅក្នុងម៉ឺនុយកម្មវិធីរុករក"),
    ("scrollAndSelect", "រមូរហើយជ្រើសរើស"),
    ("addToHomeScreen", "បន្ថែមទៅអេក្រង់ដើម"),
    ("openApp", "បើកកម្មវិធី"),
    ("fromHomeScreen", "ពីអេក្រង់ដើមរបស់អ្នក")]),
  ("lo", [("clickOnBrowser", "ກົດ"),
    ("shareIcon", "ໃນເມນູບຣາວເຊີ"),
    ("scrollAndSelect", "ເລື່ອນ ແລະ ເລືອກ"),
    ("addToHomeScreen", "ເພີ່ມໃສ່ໜ້າຈໍຫຼັກ"),
    ("openApp", "ເປີດແອັບ"),
    ("fromHomeScreen", "ຈາກໜ້າຈໍຫຼັກຂອງທ່ານ")]),
  ("ne", [("clickOnBrowser", "क्लिक गर्नुहोस्"),
    ("shareIcon", "ब्राउजर मेनुमा"),
    ("scrollAndSelect", "स्क्रोल गर्नुहोस् र छनोट गर्नुहोस्"),
    ("addToHomeScreen", "होम स्क्रिनमा थप्नुहोस्"),
    ("openApp", "एप खोल्नुहोस्"),
    ("fromHomeScreen", "तपाईंको होम स्क्रिनबाट")]),
  ("as", [("clickOnBrowser", "ক্লিক কৰক"),
    ("shareIcon", "ব্ৰাউজাৰ মেনুত"),
    ("scrollAndSelect", "স্ক্ৰল কৰক আৰু নিৰ্বাচন কৰক"),
    ("addToHomeScreen", "হোম স্ক্ৰীণলৈ যোগ কৰক"),
    ("openApp", "এপ খোলক"),
    ("fromHomeScreen", "আপোনাৰ হোম স্ক্ৰীণৰ পৰা")]),
  ("or", [("clickOnBrowser", "କ୍ଲିକ କରନ୍ତୁ"),
    ("shareIcon", "ବ୍ରାଉଜର ମେନୁରେ"),
    ("scrollAndSelect", "ସ୍କ୍ରୋଲ କରନ୍ତୁ ଏବଂ ଚୟନ କରନ୍ତୁ"),
    ("addToHomeScreen", "ହୋମ ସ୍କ୍ରିନରେ ଯୋଡନ୍ତୁ"),
    ("openApp", "ଆପ୍ ଖୋଲନ୍ତୁ"),
    ("fromHomeScreen", "ଆପଣଙ୍କ ହୋମ ସ୍କ୍ରିନରୁ")])
]

/-- Embeds the device-language resolution of `utils.translateText`
(part_000 lines 200 and 534-535): `navigator.language ||
navigator.userLanguage || "en"`, then the first two characters. -/
def langCodeOf (language userLanguage : Option String) : String :=
  let deviceLang :=
    match jsOrStr (jsOrStr language userLanguage) (some "en") with
    | some s => s
    | none => "en"
  deviceLang.take 2

/-- Fall-through expression of `utils.translateText` (part_000 line
543): `fallbackText || translations["en"][key] || fallbackText` with JS
truthiness. -/
def translateFallback (key : String) (fallbackText : Option String) : Option String :=
  jsOrStr fallbackText
    (jsOrStr (((translations.lookup "en").getD []).lookup key) fallbackText)

/-- Embeds `utils.translateText` (part_000 lines 199-544): return the
resolved locale table's value when present and truthy, otherwise the
fall-through expression. The result is `Option` because the JS function
can return `undefined` when both lookups and the fallback are absent. -/
def translateText (language userLanguage : Option String) (key : String)
    (fallbackText : Option String) : Option String :=
  let langCode := langCodeOf language userLanguage
  match translations.lookup langCode with
  | some table =>
    match table.lookup key with
    | some v => if v ≠ "" then some v else translateFallback key fallbackText
    | none => translateFallback key fallbackText
  | none => translateFallback key fallbackText

/-- Lookup miss of `translations[langCode] && translations[langCode][key]`:
the resolved locale is unsupported, or its table lacks the key (a falsy
stored value would also miss, but the table holds none). -/
def lookupMiss (language userLanguage : Option String) (key : String) : Bool :=
  match translations.lookup (langCodeOf language userLanguage) with
  | none => true
  | some table => (table.lookup key).isNone

/-! ## Drawer widget (part_000, `Drawer`) -/

/-- Pending one-shot timers scheduled by the drawer: the 10ms
slide-in-transform timer of `open` and the 300ms DOM-teardown timer of
`close`. -/
inductive TimerA where
  | showTransform
  | teardown
deriving DecidableEq

/-- Inline style properties the drawer mutates on its two DOM nodes. -/
structure ElemStyle where
  transform : String := ""
  opacity : String := ""
  visibility : String := ""
deriving DecidableEq

/-- Drawer state: the `Drawer` object's fields (`isOpen`, `element`,
`overlay`, `themeListener`) plus the bits of browser state it owns — the
set of listeners currently registered on the dark-mode media query, the
body scroll lock, and the pending timers. `nextListenerId` numbers the
closures `addThemeListener` allocates. -/
structure DrawerS where
  isOpen : Bool := false
  element : Option ElemStyle := none
  overlay : Option ElemStyle := none
  themeListener : Option Nat := none
  registered : List Nat := []
  bodyOverflow : String := ""
  timers : List TimerA := []
  nextListenerId : Nat := 0
deriving DecidableEq

/-- State before any drawer exists (module load). -/
def drawerInit : DrawerS := {}

/-- Embeds `Drawer.create` (part_000 lines 574-819) as one step, taken
after its awaited manifest/icon resolution finishes: inserts the overlay
and sheet with their initial inline styles, stores the references, and
registers a fresh theme listener (`addThemeListener`, lines 822-832).
`isOpen` is not touched — opening is a separate call. -/
def Drawer.create (s : DrawerS) : DrawerS :=
  let listener := s.nextListenerId
  { s with
    element := some { transform := "translateY(100%)" }
    overlay := some { opacity := "0", visibility := "hidden" }
    themeListener := some listener
    registered := s.registered ++ [listener]
    nextListenerId := listener + 1 }

/-- Embeds `Drawer.open` (part_000 lines 896-912): no-op unless a drawer
exists and is not already open; otherwise marks open, shows the overlay,
schedules the 10ms slide-in transform and locks body scroll. -/
def Drawer.doOpen (s : DrawerS) : DrawerS :=
  if s.isOpen || s.element.isNone then s
  else
    { s with
      isOpen := true
      overlay := s.overlay.map (fun o => { o with opacity := "1", visibility := "visible" })
      timers := s.timers ++ [TimerA.showTransform]
      bodyOverflow := "hidden" }

/-- Embeds `Drawer.close` (part_000 lines 915-949): no-op unless open
with a drawer present; otherwise slides the sheet out, hides the
overlay, restores body scroll, removes the theme listener immediately
(when one is held) and schedules the 300ms DOM teardown. -/
def Drawer.doClose (s : DrawerS) : DrawerS :=
  if !s.isOpen || s.element.isNone then s
  else
    { s with
      isOpen := false
      element := s.element.map (fun e => { e with transform := "translateY(100%)" })
      overlay := s.overlay.map (fun o => { o with opacity := "0", visibility := "hidden" })
      bodyOverflow := ""
      themeListener := none
      registered :=
        match s.themeListener with
        | some l => s.registered.erase l
        | none => s.registered
      timers := s.timers ++ [TimerA.teardown] }

/-- Firing a pending timer. The slide-in callback mutates the element
transform (when the element is already gone the JS callback throws on
the null reference before mutating anything, so the state is unchanged
apart from the consumed timer); the teardown callback removes both DOM
nodes and clears the references. -/
def Drawer.fireTimer (s : DrawerS) (t : TimerA) : DrawerS :=
  let s2 := { s with timers := s.timers.erase t }
  match t with
  | .showTransform =>
    { s2 with element := s2.element.map (fun e => { e with transform := "translateY(0)" }) }
  | .teardown => { s2 with element := none, overlay := none }

/-- Drawer states reachable through the modelled operations under the
facade's single-instance lifecycle discipline: `create` is only invoked
when no drawer exists and no teardown is pending (`showDrawer` creates
then opens; `closeDrawer`, overlay click and Escape close; timers fire
when pending). Calling `doOpen` and `doClose` is unrestricted. -/
inductive DReach : DrawerS → Prop where
  | init : DReach drawerInit
  | create {s : DrawerS} : DReach s → s.element = none →
      TimerA.teardown ∉ s.timers → DReach (Drawer.create s)
  | openStep {s : DrawerS} : DReach s → DReach (Drawer.doOpen s)
  | closeStep {s : DrawerS} : DReach s → DReach (Drawer.doClose s)
  | fire {s : DrawerS} {t : TimerA} : DReach s → t ∈ s.timers →
      DReach (Drawer.fireTimer s t)

/-! ## YouTube search scraping (part_001, `searchYouTube`) -/

/-- Character class `[a-zA-Z0-9_-]` of the two video-id regexes. -/
def isIdChar (c : Char) : Bool := c.isAlphanum || c == '_' || c == '-'

/-- Literal prefix of the first regex, `"videoId":"` (11 characters). -/
def pref1 : List Char := "\"videoId\":\"".data

/-- Literal prefix of the second regex, `watch?v=` (8 characters). -/
def pref2 : List Char := "watch?v=".data

/-- One regex attempt at the current position: the literal prefix
followed by exactly 11 id characters. -/
def matchesAt (pref : List Char) (s : List Char) : Bool :=
  pref.isPrefixOf s && ((s.drop pref.length).take 11).all isIdChar &&
    decide (11 ≤ (s.drop pref.length).length)

/-- Global regex scan (`String.prototype.match` with `/g`): left to
right, non-overlapping, resuming after each match. Structured on a fuel
argument so the scan computes by kernel reduction; every step consumes
at least one input character and one unit of fuel, so fuel equal to the
input length (as `scanPattern` passes) never runs out early. -/
def scanPatternF (pref : List Char) : Nat → List Char → List (List Char)
  | 0, _ => []
  | _ + 1, [] => []
  | fuel + 1, c :: cs =>
    if matchesAt pref (c :: cs) then
      (c :: cs).take (pref.length + 11) ::
        scanPatternF pref fuel (cs.drop (pref.length + 10))
    else scanPatternF pref fuel cs

/-- All matches of one of the two video-id regexes in the page text. -/
def scanPattern (pref : List Char) (s : List Char) : List (List Char) :=
  scanPatternF pref s.length s

/-- JS `[...new Set(list)]` on the raw match strings: keeps the first
occurrence of each distinct string, in order. -/
def dedupSeen (seen : List (List Char)) : List (List Char) → List (List Char)
  | [] => []
  | x :: xs =>
    if seen.contains x then dedupSeen seen xs
    else x :: dedupSeen (x :: seen) xs

/-- Deduplicate keeping first occurrences (Set insertion order). -/
def dedupFirst (l : List (List Char)) : List (List Char) := dedupSeen [] l

/-- JS `String.prototype.replace` with a string pattern: replaces only
the first occurrence (here, with the empty string). -/
def replaceFirst (pat : List Char) : List Char → List Char
  | [] => []
  | c :: cs =>
    if pat.isPrefixOf (c :: cs) then (c :: cs).drop pat.length
    else c :: replaceFirst pat cs

/-- The `.replace('"videoId":"', '').replace('watch?v=', '')` mapping
applied to each deduplicated raw match. -/
def stripIdPrefixes (m : List Char) : List Char :=
  replaceFirst pref2 (replaceFirst pref1 m)

/-- Embeds the id-extraction pipeline of `searchYouTube` (part_001
lines 42-47): match both patterns, dedup the raw matched strings, strip
the prefixes, cap at 10. -/
def searchYouTubeIds (html : String) : List String :=
  ((dedupFirst (scanPattern pref1 html.data ++ scanPattern pref2 html.data)).map
    (fun m => String.mk (stripIdPrefixes m))).take 10

/-- Embeds `searchYouTube` (part_001 lines 37-57): one entry per
extracted id, with title/thumbnail/author filled in from the
`getVideoInfo` oracle `info` (the noembed lookup, whose own failures
are caught and produce placeholder fields). -/
def searchYouTube (info : String → String × String × Option String) (html : String) :
    List VideoInfo :=
  (searchYouTubeIds html).map (fun videoId =>
    { videoId := videoId, title := (info videoId).1, thumbnail := (info videoId).2.1,
      authorName := (info videoId).2.2 })

/-- Proxied HTML in which the same video id is matched by both regex
patterns. -/
def dupHtml : String := "\"videoId\":\"abcdefghijkwatch?v=abcdefghijk"

/-- Concrete `getVideoInfo` oracle for witnesses. -/
def infoFixture : String → String × String × Option String :=
  fun videoId => ("title of " ++ videoId, "thumb", none)

/-- Inductive invariant carrying C7: the listener reference matches the
registered-listener set exactly, both are empty whenever no drawer
element exists, and a pending teardown implies the listener was already
removed (the close that scheduled it removed it first). -/
def ListenerInv (s : DrawerS) : Prop :=
  (s.element = none → s.themeListener = none ∧ s.registered = []) ∧
  (s.registered = match s.themeListener with | some l => [l] | none => []) ∧
  (TimerA.teardown ∈ s.timers → s.themeListener = none)

/-! ## Theorems for C1 and C8 -/

theorem or_absorb_signals (a b c d : Bool) :
    ((a || b || c || d) || a || b || c || d || (a || b || c)) = (a || b || c || d) := by
  revert a b c d
  decide

/-- C1: for every combination of the four standalone signals, the
`isAlreadyInstalled` flag computed by `init` is true iff at least one of
the four signals is true, and init performs its work (registers the
install-prompt listener; schedules the drawer) exactly when the flag is
false. -/
theorem c1_init_installed_flag (env : SignalEnv) (cfg : InitConfig) :
    (sdkInit env cfg).isAlreadyInstalled =
      (env.displayStandalone || env.displayFullscreen || env.displayMinimalUI ||
        env.iosStandalone) ∧
    (sdkInit env cfg).promptListenerRegistered = !(sdkInit env cfg).isAlreadyInstalled ∧
    ((sdkInit env cfg).isAlreadyInstalled = true →
      sdkInit env cfg =
        { isAlreadyInstalled := true, scheduledShowDelay := none,
          promptListenerRegistered := false }) := by
  unfold sdkInit utilsIsStandalone
  cases env.displayStandalone <;> cases env.displayFullscreen <;>
    cases env.displayMinimalUI <;> cases env.iosStandalone <;>
      simp

/-- Witness for C1 at a concrete environment: with only the fullscreen
signal set, init reports installed and does nothing. -/
theorem c1_init_installed_flag_witness :
    (sdkInit ⟨false, true, false, false, "ua", false, none, none⟩ {}).isAlreadyInstalled =
      (false || true || false || false) ∧
    (sdkInit ⟨false, true, false, false, "ua", false, none, none⟩ {}).promptListenerRegistered =
      !(sdkInit ⟨false, true, false, false, "ua", false, none, none⟩ {}).isAlreadyInstalled ∧
    ((sdkInit ⟨false, true, false, false, "ua", false, none, none⟩ {}).isAlreadyInstalled = true →
      sdkInit ⟨false, true, false, false, "ua", false, none, none⟩ {} =
        { isAlreadyInstalled := true, scheduledShowDelay := none,
          promptListenerRegistered := false }) :=
  c1_init_installed_flag ⟨false, true, false, false, "ua", false, none, none⟩ {}

/-- C8: `shouldShowDrawer(config)` is false when standalone mode is
detected, false when `config.mobileOnly` is set and the device is not
mobile, and true in every other case — equivalently, it equals the stated
boolean combination of the detection utilities. -/
theorem c8_shouldShowDrawer_cases (env : SignalEnv) (cfg : InitConfig) :
    shouldShowDrawer env cfg =
      (!utilsIsStandalone env && (!cfg.mobileOnly || utilsIsMobile env)) := by
  unfold shouldShowDrawer
  cases h1 : utilsIsStandalone env <;> cases h2 : cfg.mobileOnly <;>
    cases h3 : utilsIsMobile env <;> simp [h1, h2, h3]

/-! ## Theorems for C3 and C9 -/

theorem length_saveWatchedVideo_le (v : VideoInfo) (s : List VideoInfo) :
    (saveWatchedVideo v s).length ≤ 10 := by
  simp [saveWatchedVideo]

theorem saveAll_cons (v : VideoInfo) (vs : List VideoInfo) (s : List VideoInfo) :
    saveAll (v :: vs) s = saveAll vs (saveWatchedVideo v s) := rfl

theorem saveAll_append_singleton (vs : List VideoInfo) (v : VideoInfo) (s : List VideoInfo) :
    saveAll (vs ++ [v]) s = saveWatchedVideo v (saveAll vs s) := by
  simp [saveAll, List.foldl_append]

/-- Shape of the store after a run of distinct-id saves: the saved videos
occupy the front (most recent first) and whatever survives of the old
store trails them, always capped at 10. -/
theorem saveAll_front (vs : List VideoInfo)
    (hnd : (vs.map (·.videoId)).Nodup) (hlen : vs.length ≤ 10) :
    ∀ s : List VideoInfo, s.length ≤ 10 →
      ∃ junk, saveAll vs s = vs.reverse ++ junk ∧
        (vs.reverse ++ junk).length ≤ 10 ∧
        ∀ x ∈ junk, x.videoId ∉ vs.map (·.videoId) := by
  induction vs using List.reverseRecOn with
  | nil =>
    intro s hs
    exact ⟨s, rfl, by simpa using hs, by simp⟩
  | append_singleton vs v ih =>
    intro s hs
    have hmap : ((vs.map (·.videoId)) ++ [v.videoId]).Nodup := by
      simpa using hnd
    have hnd' : (vs.map (·.videoId)).Nodup := (List.nodup_append.mp hmap).1
    have hdisj : v.videoId ∉ vs.map (·.videoId) := by
      have := (List.nodup_append.mp hmap).2.2
      intro hmem
      exact this hmem (by simp)
    have hlen' : vs.length ≤ 9 := by
      have := hlen
      simp at this
      omega
    obtain ⟨junk, heq, hle, hids⟩ := ih hnd' (by omega) s hs
    refine ⟨(junk.filter (fun x => x.videoId != v.videoId)).take (9 - vs.length), ?_, ?_, ?_⟩
    · rw [saveAll_append_singleton, heq]
      unfold saveWatchedVideo
      have hfil : (vs.reverse).filter (fun x => x.videoId != v.videoId) = vs.reverse := by
        rw [List.filter_eq_self]
        intro a ha
        have : a ∈ vs := by simpa using ha
        have : a.videoId ∈ vs.map (·.videoId) := List.mem_map_of_mem _ this
        simp only [bne_iff_ne, ne_eq]
        intro hcontra
        exact hdisj (hcontra ▸ this)
      simp only [List.filter_append, hfil]
      rw [List.reverse_append]
      simp only [List.reverse_singleton, List.singleton_append]
      rw [show (10 : Nat) = 9 + 1 from rfl, List.take_succ_cons]
      rw [List.take_append_eq_append_take]
      rw [List.take_of_length_le (by simpa using hlen')]
      simp [List.length_reverse]
    · rw [List.reverse_append]
      simp only [List.reverse_singleton, List.singleton_append, List.length_cons,
        List.length_append, List.length_reverse, List.length_take]
      omega
    · intro x hx
      have hx' := List.mem_of_mem_take hx
      have hxj : x ∈ junk := List.mem_of_mem_filter hx'
      have hxne : x.videoId ≠ v.videoId := by
        have := List.of_mem_filter hx'
        simpa using this
      have := hids x hxj
      simp only [List.map_append, List.map_cons, List.map_nil, List.mem_append,
        List.mem_singleton]
      rintro (h | h)
      · exact this h
      · exact hxne h

/-- C3: the stored watch-history list stays capped and deduplicated.
After saving 11 distinct videos (into any store of at most 10 entries'
reachable shape — in fact any store) exactly 10 entries remain, in
most-recently-saved-first order, and saving a videoId already present
moves that entry to the front without duplicating it. -/
theorem c3_watch_history :
    (∀ (vs : List VideoInfo) (s : List VideoInfo),
       vs.length = 11 → (vs.map (·.videoId)).Nodup →
       (saveAll vs s).length = 10 ∧ saveAll vs s = vs.reverse.take 10) ∧
    (∀ (v : VideoInfo) (s : List VideoInfo), s.length ≤ 10 →
       v.videoId ∈ s.map (·.videoId) →
       saveWatchedVideo v s = v :: s.filter (fun x => x.videoId != v.videoId)) := by
  constructor
  · intro vs s hlen hnd
    match vs, hlen with
    | v₀ :: rest, hlen =>
      have hrestlen : rest.length = 10 := by simpa using hlen
      have hnd' : (rest.map (·.videoId)).Nodup := by
        simp only [List.map_cons] at hnd
        exact hnd.of_cons
      obtain ⟨junk, heq, hle, _⟩ :=
        saveAll_front rest hnd' (by omega) (saveWatchedVideo v₀ s)
          (length_saveWatchedVideo_le v₀ s)
      have hjunk : junk = [] := by
        have := hle
        simp only [List.length_append, List.length_reverse, hrestlen] at this
        exact List.length_eq_zero.mp (by omega)
      subst hjunk
      have hsa : saveAll (v₀ :: rest) s = rest.reverse := by
        rw [saveAll_cons, heq, List.append_nil]
      constructor
      · rw [hsa, List.length_reverse, hrestlen]
      · rw [hsa, List.reverse_cons, List.take_append_eq_append_take]
        rw [List.take_of_length_le (by rw [List.length_reverse]; omega)]
        simp [List.length_reverse, hrestlen]
  · intro v s hs hmem
    obtain ⟨u, hu, huid⟩ := List.mem_map.mp hmem
    have hflt : (s.filter (fun x => x.videoId != v.videoId)).length < s.length := by
      apply List.length_filter_lt_length_iff_exists.mpr
      exact ⟨u, hu, by simp [huid]⟩
    simp only [saveWatchedVideo]
    rw [show (10 : Nat) = 9 + 1 from rfl, List.take_succ_cons]
    rw [List.take_of_length_le (by omega)]

/-- Witness for C3: eleven concretely distinct videos saved into the
empty store leave the last ten in reverse save order, and re-saving an
id already present moves it to the front. -/
theorem c3_watch_history_witness :
    ((List.range 11).map (fun i => mkVid (toString i))).length = 11 ∧
    ((saveAll ((List.range 11).map (fun i => mkVid (toString i))) []).length = 10 ∧
      saveAll ((List.range 11).map (fun i => mkVid (toString i))) [] =
        ((List.range 11).map (fun i => mkVid (toString i))).reverse.take 10) ∧
    saveWatchedVideo (mkVid "1") [mkVid "0", mkVid "1", mkVid "2"] =
      mkVid "1" :: [mkVid "0", mkVid "1", mkVid "2"].filter
        (fun x => x.videoId != (mkVid "1").videoId) := by
  refine ⟨by decide, ?_, ?_⟩
  · exact c3_watch_history.1 _ [] (by decide) (by decide)
  · exact c3_watch_history.2 (mkVid "1") [mkVid "0", mkVid "1", mkVid "2"]
      (by decide) (by decide)

/-- C9: `getWatchedVideos` never throws — every browser-store state maps
to a plain list: an absent entry or a value `JSON.parse` rejects gives
`[]`, and a value that parses gives the parsed list. (The hypothesis
records that `JSON.parse` rejects the empty string, which the code
short-circuits past the parser.) -/
theorem c9_getWatchedVideos (parse : String → Except String (List VideoInfo))
    (hempty : ∀ l, parse "" ≠ .ok l) :
    getWatchedVideos parse none = [] ∧
    (∀ s e, parse s = .error e → getWatchedVideos parse (some s) = []) ∧
    (∀ s l, parse s = .ok l → getWatchedVideos parse (some s) = l) := by
  refine ⟨rfl, ?_, ?_⟩
  · intro s e hp
    by_cases hs : s = "" <;> simp [getWatchedVideos, hp, hs]
  · intro s l hp
    have hs : s ≠ "" := fun h => hempty l (h ▸ hp)
    simp [getWatchedVideos, hs, hp]

/-- Witness for C9 at the concrete parse fixture and concrete stores. -/
theorem c9_getWatchedVideos_witness :
    getWatchedVideos parseFixture none = [] ∧
    getWatchedVideos parseFixture (some "oops") = [] ∧
    getWatchedVideos parseFixture (some "[good]") = [mkVid "g"] :=
  ⟨(c9_getWatchedVideos parseFixture (fun l h => by simp [parseFixture] at h)).1,
   (c9_getWatchedVideos parseFixture (fun l h => by simp [parseFixture] at h)).2.1
     "oops" "SyntaxError" (by simp [parseFixture]),
   (c9_getWatchedVideos parseFixture (fun l h => by simp [parseFixture] at h)).2.2
     "[good]" [mkVid "g"] (by simp [parseFixture])⟩

/-! ## Theorems for C2 and C5 -/

theorem getFaviconFromHtml_ne_empty (links : List String) (f : String)
    (h : getFaviconFromHtml links = some f) : f ≠ "" := by
  induction links with
  | nil => exact Option.noConfusion h
  | cons l rest ih =>
    by_cases hl : l = ""
    · subst hl
      exact ih h
    · unfold getFaviconFromHtml at h
      rw [if_pos hl] at h
      have h2 : l = f := Option.some.inj h
      subst h2
      exact hl

theorem createFallbackIcon_ne_empty : createFallbackIcon ≠ "" := by decide

theorem manifestIconCandidate_ne_empty (p : String → Bool) (n : Nat)
    (m : ManifestInfo) (u : String)
    (h : manifestIconCandidate p n m = some u) : u ≠ "" := by
  unfold manifestIconCandidate at h
  split at h
  · split at h
    · split at h
      · split at h
        · rename_i hcond
          simp only [Bool.and_eq_true] at hcond
          obtain ⟨h1, _⟩ := hcond
          exact (Option.some.inj h) ▸ bne_iff_ne.mp h1
        · exact Option.noConfusion h
      · exact Option.noConfusion h
    · exact Option.noConfusion h
  · exact Option.noConfusion h

theorem manifestIconCandidate_none_of_probe_false (p : String → Bool) (n : Nat)
    (m : ManifestInfo) (hp : ∀ u, p u = false) :
    manifestIconCandidate p n m = none := by
  unfold manifestIconCandidate
  split
  · split
    · split
      · simp [hp _]
      · rfl
    · rfl
  · rfl

/-- C2: `getAppIcon` returns a nonempty URI for every manifest-fetch
outcome, favicon configuration and probe outcome; and in the terminal
case — the manifest icon candidate yields nothing (absent or failed
probe) and the HTML favicon is absent or fails its probe — the result
is the generated base64 SVG data URI. -/
theorem c2_getAppIcon_total_fallback (env : PageEnv) :
    getAppIcon env 192 ≠ "" ∧
    (manifestIconCandidate env.probe 192 (loadManifest env.fetch env.links) = none →
      (∀ f, getFaviconFromHtml env.links = some f → env.probe f = false) →
      getAppIcon env 192 = createFallbackIcon) := by
  constructor
  · simp only [getAppIcon]
    split
    · rename_i src hc
      exact manifestIconCandidate_ne_empty _ _ _ _ hc
    · split
      · rename_i fav hf
        split
        · exact getFaviconFromHtml_ne_empty _ _ hf
        · exact createFallbackIcon_ne_empty
      · exact createFallbackIcon_ne_empty
  · intro hm hf
    simp only [getAppIcon]
    rw [hm]
    cases hfe : getFaviconFromHtml env.links with
    | none => rfl
    | some fav => simp [hf fav hfe]

/-- Witness for C2: with a thrown fetch, no favicon links and failing
probes, the icon is the generated data URI and is nonempty. -/
theorem c2_getAppIcon_total_fallback_witness :
    getAppIcon probelessEnv 192 ≠ "" ∧
    getAppIcon probelessEnv 192 = createFallbackIcon :=
  ⟨(c2_getAppIcon_total_fallback probelessEnv).1,
   (c2_getAppIcon_total_fallback probelessEnv).2
     (manifestIconCandidate_none_of_probe_false _ _ _ (fun _ => rfl))
     (fun _ h => Option.noConfusion h)⟩

/-- C5: `loadManifest` never fails outward (it is total, every failure
branch lands in the catch), and on any failure — network error, non-2xx
response, parse error — it returns the default manifest: the fixed
generic app name (`"React PWA"` in the source) plus a single icon built
from the HTML favicon link when present, `/favicon.png` otherwise. -/
theorem c5_loadManifest_default (fetch : FetchResult) (links : List String)
    (hfail : ∀ m, fetch ≠ .response true (.ok m)) :
    loadManifest fetch links =
      { name := some "React PWA", short_name := some "ReactPWA",
        icons := some [{ src := (getFaviconFromHtml links).getD "/favicon.png",
                         sizes := some "192x192", iconType := some "image/png" }] } ∧
    ((loadManifest fetch links).icons.getD []).length = 1 := by
  have hdef :
      loadManifest fetch links =
        { name := some "React PWA", short_name := some "ReactPWA",
          icons := some [{ src := (getFaviconFromHtml links).getD "/favicon.png",
                           sizes := some "192x192", iconType := some "image/png" }] } := by
    cases fetch with
    | netError =>
      simp only [loadManifest]
      cases hf : getFaviconFromHtml links <;> simp [hf]
    | response ok json =>
      cases ok with
      | true =>
        cases json with
        | ok m => exact absurd rfl (hfail m)
        | error e =>
          simp only [loadManifest]
          cases hf : getFaviconFromHtml links <;> simp [hf]
      | false =>
        simp only [loadManifest]
        cases hf : getFaviconFromHtml links <;> simp [hf]
  exact ⟨hdef, by rw [hdef]; rfl⟩

/-- Witness for C5: a network error with one favicon link present yields
the default manifest carrying that favicon. -/
theorem c5_loadManifest_default_witness :
    loadManifest .netError ["apple-touch-icon.png"] =
      { name := some "React PWA", short_name := some "ReactPWA",
        icons := some [{ src := (getFaviconFromHtml ["apple-touch-icon.png"]).getD "/favicon.png",
                         sizes := some "192x192", iconType := some "image/png" }] } ∧
    ((loadManifest .netError ["apple-touch-icon.png"]).icons.getD []).length = 1 :=
  c5_loadManifest_default .netError ["apple-touch-icon.png"]
    (fun _ h => FetchResult.noConfusion h)

/-! ## Theorems for C6 and C7 -/

theorem doOpen_of_isOpen (s : DrawerS) (h : s.isOpen = true) :
    Drawer.doOpen s = s := by
  simp [Drawer.doOpen, h]

theorem doOpen_of_no_element (s : DrawerS) (h : s.element = none) :
    Drawer.doOpen s = s := by
  simp [Drawer.doOpen, h]

theorem doClose_of_not_open (s : DrawerS) (h : s.isOpen = false) :
    Drawer.doClose s = s := by
  simp [Drawer.doClose, h]

theorem doOpen_idem (s : DrawerS) :
    Drawer.doOpen (Drawer.doOpen s) = Drawer.doOpen s := by
  by_cases ho : s.isOpen = true
  · rw [doOpen_of_isOpen s ho, doOpen_of_isOpen s ho]
  · cases hel : s.element with
    | none => rw [doOpen_of_no_element s hel, doOpen_of_no_element s hel]
    | some e =>
      have hopen : (Drawer.doOpen s).isOpen = true := by
        simp [Drawer.doOpen, Bool.eq_false_iff.mpr ho, hel]
      exact doOpen_of_isOpen _ hopen

/-- C6: calling `open()` when already open or before `create`, and
calling `close()` when not open, are no-ops — the total transition
functions return the state unchanged (no DOM, scroll-lock or listener
effect, and being total they raise nothing) — and opening twice in a
row has no effect beyond the first open. -/
theorem c6_open_close_guards :
    (∀ s : DrawerS, s.isOpen = true → Drawer.doOpen s = s) ∧
    (∀ s : DrawerS, s.element = none → Drawer.doOpen s = s) ∧
    (∀ s : DrawerS, s.isOpen = false → Drawer.doClose s = s) ∧
    (∀ s : DrawerS, Drawer.doOpen (Drawer.doOpen s) = Drawer.doOpen s) :=
  ⟨doOpen_of_isOpen, doOpen_of_no_element, doClose_of_not_open, doOpen_idem⟩

/-- Witness for C6 at concrete states: the freshly created-and-opened
drawer, and the initial state with no drawer. -/
theorem c6_open_close_guards_witness :
    Drawer.doOpen (Drawer.doOpen (Drawer.create drawerInit)) =
      Drawer.doOpen (Drawer.create drawerInit) ∧
    Drawer.doOpen drawerInit = drawerInit ∧
    Drawer.doClose drawerInit = drawerInit ∧
    Drawer.doOpen (Drawer.doOpen (Drawer.doOpen (Drawer.create drawerInit))) =
      Drawer.doOpen (Drawer.doOpen (Drawer.create drawerInit)) :=
  ⟨c6_open_close_guards.1 _ (by decide),
   c6_open_close_guards.2.1 drawerInit (by decide),
   c6_open_close_guards.2.2.1 drawerInit (by decide),
   c6_open_close_guards.2.2.2 (Drawer.doOpen (Drawer.create drawerInit))⟩

theorem dreach_listenerInv (s : DrawerS) (hs : DReach s) : ListenerInv s := by
  induction hs with
  | init => exact ⟨fun _ => ⟨rfl, rfl⟩, rfl, fun h => absurd h (by simp [drawerInit])⟩
  | create hr hel htd ih =>
    obtain ⟨h1, h2, h3⟩ := ih
    obtain ⟨hl, hreg⟩ := h1 hel
    refine ⟨?_, ?_, ?_⟩
    · intro hcontra
      simp [Drawer.create] at hcontra
    · simp [Drawer.create, hreg]
    · intro ht
      simp only [Drawer.create] at ht
      exact absurd ht htd
  | openStep hr ih =>
    rename_i s'
    obtain ⟨h1, h2, h3⟩ := ih
    unfold Drawer.doOpen
    split
    · exact ⟨h1, h2, h3⟩
    · rename_i hguard
      refine ⟨?_, h2, ?_⟩
      · intro hel
        simp only at hel
        rw [hel] at hguard
        simp at hguard
      · intro ht
        simp only [List.mem_append, List.mem_singleton] at ht
        rcases ht with ht | ht
        · exact h3 ht
        · exact absurd ht (by simp)
  | closeStep hr ih =>
    rename_i s'
    obtain ⟨h1, h2, h3⟩ := ih
    unfold Drawer.doClose
    split
    · exact ⟨h1, h2, h3⟩
    · rename_i hguard
      refine ⟨?_, ?_, fun _ => rfl⟩
      · intro hel
        simp only [Option.map_eq_none'] at hel
        obtain ⟨hln, hrn⟩ := h1 hel
        refine ⟨rfl, ?_⟩
        rw [hln, hrn]
      · cases hl : s'.themeListener with
        | none => rw [hl] at h2; simpa [hl] using h2
        | some l => rw [hl] at h2; simp [hl, h2]
  | fire hr hmem ih =>
    rename_i s' t
    obtain ⟨h1, h2, h3⟩ := ih
    cases t with
    | showTransform =>
      refine ⟨?_, h2, ?_⟩
      · intro hel
        simp only [Drawer.fireTimer, Option.map_eq_none'] at hel
        exact h1 hel
      · intro ht
        simp only [Drawer.fireTimer] at ht
        exact h3 (List.mem_of_mem_erase ht)
    | teardown =>
      have hln := h3 hmem
      simp only [Drawer.fireTimer]
      exact ⟨fun _ => ⟨hln, by rw [h2, hln]⟩, h2, fun _ => hln⟩

/-- C7 counterexample: the state reached by `create()` alone — which the
facade's `showDrawer` passes through before calling `open()` — is
reachable and has the theme listener attached while the drawer is not
open, refuting "the listener is attached only while the drawer is
open". -/
theorem c7_listener_attached_while_closed :
    DReach (Drawer.create drawerInit) ∧
    (Drawer.create drawerInit).themeListener.isSome = true ∧
    (Drawer.create drawerInit).isOpen = false :=
  ⟨DReach.create DReach.init rfl (by simp [drawerInit]), rfl, rfl⟩

/-- C7 (amended): in every reachable drawer state the theme listener is
attached only while a drawer instance exists (create attaches it before
open, so "while open" is too strong); `close()` on an open drawer
deregisters it immediately — the DOM element is still present and the
300ms teardown merely pending — and no listener is registered when no
drawer exists. -/
theorem c7_theme_listener_lifecycle (s : DrawerS) (hs : DReach s) :
    (s.themeListener.isSome = true → s.element.isSome = true) ∧
    (s.element = none → s.themeListener = none ∧ s.registered = []) ∧
    (s.isOpen = true → s.element.isSome = true →
      (Drawer.doClose s).themeListener = none ∧
      (Drawer.doClose s).registered = [] ∧
      (Drawer.doClose s).element.isSome = true ∧
      TimerA.teardown ∈ (Drawer.doClose s).timers) := by
  obtain ⟨h1, h2, h3⟩ := dreach_listenerInv s hs
  refine ⟨?_, h1, ?_⟩
  · intro hat
    cases hel : s.element with
    | none =>
      obtain ⟨hln, -⟩ := h1 hel
      rw [hln] at hat
      exact absurd hat (by simp)
    | some e => rfl
  · intro hopen helem
    have hguard : (!s.isOpen || s.element.isNone) = false := by
      rw [hopen]
      cases hel : s.element with
      | none => rw [hel] at helem; exact absurd helem (by simp)
      | some e => simp
    unfold Drawer.doClose
    rw [hguard, if_neg (show ¬(false = true) by simp)]
    refine ⟨rfl, ?_, ?_, ?_⟩
    · cases hl : s.themeListener with
      | none => rw [hl] at h2; simpa using h2
      | some l => rw [hl] at h2; simp [h2]
    · cases hel : s.element with
      | none => rw [hel] at helem; exact absurd helem (by simp)
      | some e => simp [hel]
    · simp


/-- Witness for C7 at the concrete reachable state created and opened
from the initial state. -/
theorem c7_theme_listener_lifecycle_witness :
    ((Drawer.doOpen (Drawer.create drawerInit)).themeListener.isSome = true →
      (Drawer.doOpen (Drawer.create drawerInit)).element.isSome = true) ∧
    ((Drawer.doOpen (Drawer.create drawerInit)).element = none →
      (Drawer.doOpen (Drawer.create drawerInit)).themeListener = none ∧
      (Drawer.doOpen (Drawer.create drawerInit)).registered = []) ∧
    ((Drawer.doOpen (Drawer.create drawerInit)).isOpen = true →
      (Drawer.doOpen (Drawer.create drawerInit)).element.isSome = true →
      (Drawer.doClose (Drawer.doOpen (Drawer.create drawerInit))).themeListener = none ∧
      (Drawer.doClose (Drawer.doOpen (Drawer.create drawerInit))).registered = [] ∧
      (Drawer.doClose (Drawer.doOpen (Drawer.create drawerInit))).element.isSome = true ∧
      TimerA.teardown ∈ (Drawer.doClose (Drawer.doOpen (Drawer.create drawerInit))).timers) :=
  c7_theme_listener_lifecycle (Drawer.doOpen (Drawer.create drawerInit))
    (DReach.openStep (DReach.create DReach.init rfl (by simp [drawerInit])))

/-! ## Theorems for C4 -/

theorem jsOrStr_truthy (a b : Option String) (h : truthyS a = true) : jsOrStr a b = a := by
  simp [jsOrStr, h]

theorem jsOrStr_falsy (a b : Option String) (h : truthyS a = false) : jsOrStr a b = b := by
  simp [jsOrStr, h]

theorem translateText_miss (lang ul : Option String) (key : String) (fb : Option String)
    (hmiss : lookupMiss lang ul key = true) :
    translateText lang ul key fb = translateFallback key fb := by
  unfold lookupMiss at hmiss
  unfold translateText
  cases hcode : translations.lookup (langCodeOf lang ul) with
  | none => simp [hcode]
  | some table =>
    rw [hcode] at hmiss
    simp only [Option.isNone_iff_eq_none] at hmiss
    simp [hcode, hmiss]

/-- C4 counterexample: "es" is a supported locale, yet with no fallback
argument `translateText` returns the Spanish table value, not the
English value `"Click"` — refuting "for a supported locale with no
fallback argument it returns the English value for that key". -/
theorem c4_supported_locale_not_english :
    (translations.lookup (langCodeOf (some "es") none)).isSome = true ∧
    translateText (some "es") none "clickOnBrowser" none = some "Haz clic" ∧
    some "Haz clic" ≠ (some "Click" : Option String) :=
  ⟨rfl, rfl, by decide⟩

/-- C4 (amended): lookup order of `translate(key, fallbackText)` — a
supported locale whose table has the key returns that locale's value
(the English value exactly when the locale is English); on a miss a
truthy fallback is returned, else the English-table value, else the
fallback as given. Concretely: locale "en" with fallback "Click" gives
"Click"; unsupported "xx" gives the fallback; supported "es" with no
fallback gives "Haz clic"; "en" with no fallback gives "Click". -/
theorem c4_translate_order :
    (∀ (lang ul : Option String) (key : String) (fb : Option String)
        (table : List (String × String)) (v : String),
        translations.lookup (langCodeOf lang ul) = some table →
        table.lookup key = some v → v ≠ "" →
        translateText lang ul key fb = some v) ∧
    (∀ (lang ul : Option String) (key : String) (f : String),
        lookupMiss lang ul key = true → f ≠ "" →
        translateText lang ul key (some f) = some f) ∧
    (∀ (lang ul : Option String) (key : String),
        lookupMiss lang ul key = true →
        translateText lang ul key none =
          jsOrStr (((translations.lookup "en").getD []).lookup key) none) ∧
    translateText (some "en") none "clickOnBrowser" (some "Click") = some "Click" ∧
    translateText (some "xx") none "clickOnBrowser" (some "Click") = some "Click" ∧
    translateText (some "es") none "clickOnBrowser" none = some "Haz clic" ∧
    translateText (some "en") none "clickOnBrowser" none = some "Click" := by
  refine ⟨?_, ?_, ?_, rfl, rfl, rfl, rfl⟩
  · intro lang ul key fb table v hcode hkey hv
    unfold translateText
    simp [hcode, hkey, hv]
  · intro lang ul key f hmiss hf
    rw [translateText_miss _ _ _ _ hmiss]
    unfold translateFallback
    rw [jsOrStr_truthy]
    simp [truthyS, hf]
  · intro lang ul key hmiss
    rw [translateText_miss _ _ _ _ hmiss]
    unfold translateFallback
    rw [jsOrStr_falsy none _ rfl]

/-- Witness for C4 at concrete lookups: a German hit ignores the
fallback, an unsupported locale takes the truthy fallback, and with no
fallback the English value comes through. -/
theorem c4_translate_order_witness :
    translateText (some "de-DE") none "openApp" (some "fallback") = some "App öffnen" ∧
    translateText (some "zz-ZZ") none "openApp" (some "fallback") = some "fallback" ∧
    translateText (some "zz-ZZ") none "openApp" none = some "Open app" :=
  ⟨c4_translate_order.1 (some "de-DE") none "openApp" (some "fallback") _ _ rfl rfl
     (by decide),
   c4_translate_order.2.1 (some "zz-ZZ") none "openApp" "fallback" rfl (by decide),
   by rw [c4_translate_order.2.2.1 (some "zz-ZZ") none "openApp" rfl]; rfl⟩

/-! ## Theorems for C10 -/

theorem scanPatternF_shape (pref : List Char) :
    ∀ (fuel : Nat) (s : List Char), ∀ m ∈ scanPatternF pref fuel s,
      ∃ w, m = pref ++ w ∧ w.length = 11 ∧ w.all isIdChar = true := by
  intro fuel
  induction fuel with
  | zero => intro s m hm; simp [scanPatternF] at hm
  | succ fuel ih =>
    intro s m hm
    cases s with
    | nil => simp [scanPatternF] at hm
    | cons c cs =>
      rw [scanPatternF] at hm
      by_cases hmatch : matchesAt pref (c :: cs) = true
      · rw [if_pos hmatch] at hm
        rcases List.mem_cons.mp hm with heq | hm'
        · subst heq
          unfold matchesAt at hmatch
          simp only [Bool.and_eq_true, decide_eq_true_eq] at hmatch
          obtain ⟨⟨hpre, hall⟩, hlen⟩ := hmatch
          obtain ⟨rest, hrest⟩ := List.isPrefixOf_iff_prefix.mp hpre
          have hdrop : (c :: cs).drop pref.length = rest := by
            rw [← hrest, List.drop_left]
          refine ⟨rest.take 11, ?_, ?_, ?_⟩
          · rw [← hrest, List.take_append_eq_append_take,
              List.take_of_length_le (by omega), Nat.add_sub_cancel_left]
          · rw [hdrop] at hlen
            simp only [List.length_take]
            omega
          · rw [hdrop] at hall
            exact hall
        · exact ih _ m hm'
      · rw [if_neg hmatch] at hm
        exact ih _ m hm

theorem mem_dedupSeen (l : List (List Char)) :
    ∀ (seen : List (List Char)) (x : List Char), x ∈ dedupSeen seen l → x ∈ l := by
  induction l with
  | nil => intro seen x hx; simp [dedupSeen] at hx
  | cons y ys ih =>
    intro seen x hx
    rw [dedupSeen] at hx
    by_cases hy : seen.contains y = true
    · rw [if_pos hy] at hx
      exact List.mem_cons_of_mem y (ih seen x hx)
    · rw [if_neg hy] at hx
      rcases List.mem_cons.mp hx with heq | hx'
      · exact heq ▸ List.mem_cons_self y ys
      · exact List.mem_cons_of_mem y (ih (y :: seen) x hx')

theorem dedupSeen_nodup (l : List (List Char)) :
    ∀ seen : List (List Char),
      (dedupSeen seen l).Nodup ∧ ∀ x ∈ dedupSeen seen l, seen.contains x = false := by
  induction l with
  | nil => intro seen; exact ⟨List.nodup_nil, by simp [dedupSeen]⟩
  | cons y ys ih =>
    intro seen
    by_cases hy : seen.contains y = true
    · have hstep : dedupSeen seen (y :: ys) = dedupSeen seen ys := by
        rw [dedupSeen, if_pos hy]
      rw [hstep]
      exact ih seen
    · have hstep : dedupSeen seen (y :: ys) = y :: dedupSeen (y :: seen) ys := by
        rw [dedupSeen, if_neg hy]
      rw [hstep]
      obtain ⟨hnd, hnin⟩ := ih (y :: seen)
      constructor
      · refine List.nodup_cons.mpr ⟨?_, hnd⟩
        intro hmem
        have := hnin y hmem
        simp [List.contains_cons] at this
      · intro x hx
        rcases List.mem_cons.mp hx with heq | hx'
        · subst heq
          exact Bool.not_eq_true _ ▸ hy
        · have := hnin x hx'
          simp only [List.contains_cons, Bool.or_eq_false_iff] at this
          exact this.2

theorem replaceFirst_leading (pat s : List Char) (h : pat.isPrefixOf s = true) :
    replaceFirst pat s = s.drop pat.length := by
  cases s with
  | nil =>
    have hpat : pat = [] := by
      cases pat with
      | nil => rfl
      | cons p ps => simp [List.isPrefixOf] at h
    subst hpat; rfl
  | cons c cs => rw [replaceFirst, if_pos h]

theorem replaceFirst_no_occurrence (pat : List Char) (c : Char) (hcp : c ∈ pat) :
    ∀ s : List Char, c ∉ s → replaceFirst pat s = s := by
  intro s
  induction s with
  | nil => intro _; rfl
  | cons d ds ih =>
    intro hcs
    have hnp : ¬(pat.isPrefixOf (d :: ds) = true) := by
      intro hp
      exact hcs ((List.isPrefixOf_iff_prefix.mp hp).subset hcp)
    rw [replaceFirst, if_neg hnp]
    have hnds : c ∉ ds := fun h => hcs (List.mem_cons_of_mem d h)
    rw [ih hnds]

theorem stripIdPrefixes_p1 (w : List Char) (hw : w.all isIdChar = true) :
    stripIdPrefixes (pref1 ++ w) = w := by
  unfold stripIdPrefixes
  rw [replaceFirst_leading pref1 (pref1 ++ w)
      (List.isPrefixOf_iff_prefix.mpr (List.prefix_append pref1 w)),
    List.drop_left]
  apply replaceFirst_no_occurrence pref2 '?' (by decide)
  intro hq
  exact absurd (List.all_eq_true.mp hw '?' hq) (by decide)

theorem stripIdPrefixes_p2 (w : List Char) (hw : w.all isIdChar = true) :
    stripIdPrefixes (pref2 ++ w) = w := by
  unfold stripIdPrefixes
  have hq : '"' ∉ pref2 ++ w := by
    intro hmem
    rcases List.mem_append.mp hmem with h | h
    · exact absurd h (by decide)
    · exact absurd (List.all_eq_true.mp hw _ h) (by decide)
  rw [replaceFirst_no_occurrence pref1 '"' (by decide) _ hq]
  rw [replaceFirst_leading pref2 (pref2 ++ w)
      (List.isPrefixOf_iff_prefix.mpr (List.prefix_append pref2 w)),
    List.drop_left]

theorem length_le_one_of_nodup_const (l : List (List Char)) (b : List Char)
    (hnd : l.Nodup) (h : ∀ x ∈ l, x = b) : l.length ≤ 1 := by
  cases l with
  | nil => simp
  | cons y ys =>
    have hy := h y (by simp)
    have hys : ys = [] := by
      by_contra hne
      obtain ⟨z, hz⟩ := List.exists_mem_of_ne_nil ys hne
      have hzb := h z (List.mem_cons_of_mem _ hz)
      exact (List.nodup_cons.mp hnd).1 (by rw [hy, ← hzb]; exact hz)
    subst hys; simp

theorem length_le_two_of_nodup_pair (l : List (List Char)) (a b : List Char)
    (hnd : l.Nodup) (h : ∀ x ∈ l, x = a ∨ x = b) : l.length ≤ 2 := by
  cases l with
  | nil => simp
  | cons y ys =>
    obtain ⟨hyn, hnd'⟩ := List.nodup_cons.mp hnd
    have hys : ∀ x ∈ ys, x = a ∨ x = b := fun x hx => h x (List.mem_cons_of_mem _ hx)
    have hlen : ys.length ≤ 1 := by
      rcases h y (by simp) with hy | hy
      · apply length_le_one_of_nodup_const ys b hnd'
        intro x hx
        rcases hys x hx with h1 | h1
        · exact absurd (show y ∈ ys by rw [hy, ← h1]; exact hx) hyn
        · exact h1
      · apply length_le_one_of_nodup_const ys a hnd'
        intro x hx
        rcases hys x hx with h1 | h1
        · exact h1
        · exact absurd (show y ∈ ys by rw [hy, ← h1]; exact hx) hyn
    simp only [List.length_cons]
    omega

/-- C10 counterexample: a page where the same video id is matched by
both regex patterns yields that id twice — the dedup happens on the raw
matched strings before the prefixes are stripped, so the videoId fields
of the returned entries are not pairwise distinct. -/
theorem c10_duplicate_ids :
    searchYouTubeIds dupHtml = ["abcdefghijk", "abcdefghijk"] ∧
    ¬ ((searchYouTube infoFixture dupHtml).map (fun v => v.videoId)).Nodup := by
  constructor
  · decide
  · decide

/-- C10 (amended): for every query/HTML and oracle, `searchYouTube`
returns at most 10 entries, and — since the deduplication applies to
the raw matched strings, each of which determines its id and pattern —
any videoId occurs at most twice among the entries (once per regex
pattern), rather than being pairwise distinct. -/
theorem c10_search_results_capped (info : String → String × String × Option String)
    (html : String) :
    (searchYouTube info html).length ≤ 10 ∧
    ∀ videoId : String,
      ((searchYouTube info html).map (fun v => v.videoId)).count videoId ≤ 2 := by
  have hmap : (searchYouTube info html).map (fun v => v.videoId) = searchYouTubeIds html := by
    rw [searchYouTube, List.map_map]
    exact List.map_id _
  constructor
  · simp only [searchYouTube, List.length_map, searchYouTubeIds]
    exact List.length_take_le _ _
  · intro videoId
    rw [hmap]
    unfold searchYouTubeIds
    refine le_trans (List.Sublist.count_le (List.take_sublist 10 _) videoId) ?_
    rw [List.count_eq_countP, List.countP_map, List.countP_eq_length_filter]
    apply length_le_two_of_nodup_pair _ (pref1 ++ videoId.data) (pref2 ++ videoId.data)
    · exact ((dedupSeen_nodup _ []).1).filter _
    · intro x hx
      have hxd : x ∈ dedupFirst (scanPattern pref1 html.data ++ scanPattern pref2 html.data) :=
        List.mem_of_mem_filter hx
      have hxraw : x ∈ scanPattern pref1 html.data ++ scanPattern pref2 html.data :=
        mem_dedupSeen _ [] x hxd
      have hxs := List.of_mem_filter hx
      simp only [Function.comp, beq_iff_eq] at hxs
      rcases List.mem_append.mp hxraw with h1 | h2
      · obtain ⟨w, hxw, hwlen, hwall⟩ := scanPatternF_shape pref1 _ _ x h1
        left
        subst hxw
        rw [stripIdPrefixes_p1 w hwall] at hxs
        have hw : w = videoId.data := by rw [← hxs]
        rw [hw]
      · obtain ⟨w, hxw, hwlen, hwall⟩ := scanPatternF_shape pref2 _ _ x h2
        right
        subst hxw
        rw [stripIdPrefixes_p2 w hwall] at hxs
        have hw : w = videoId.data := by rw [← hxs]
        rw [hw]
